import Mathlib

set_option maxRecDepth 4000

deriving instance DecidableEq for Except

/-!
Shallow embedding of `.tito/lib/origin/builder/__init__.py` (class
`OriginBuilder`): the two methods `_setup_test_specfile` and
`_get_build_version`, together with the Python string operations they use.

External collaborators from the `tito` library (`get_latest_tagged_version`,
`check_tag_exists`, `get_spec_version_and_release`/`find_spec_file`,
`munge_specfile`, `run_command`) are modelled as oracle fields of an
environment record, following the collaborator interfaces of the spec (§6).
The two `sed -i` invocations the method issues through `run_command` are
modelled by their documented line-oriented effect on the descriptor file,
which is carried in the state as a list of lines.
-/

namespace OriginBuilder

/-- Whitespace characters recognised by Python's argument-less `str.split`
and `str.strip`. -/
def pyIsSpace (c : Char) : Bool :=
  c = ' ' || c = '\t' || c = '\n' || c = '\r' || c = '\x0b' || c = '\x0c'

/-- Worker for `pySplit`: walks the characters accumulating the current
token (reversed); whitespace ends the token, runs of whitespace produce no
empty tokens. -/
def splitWsAux : List Char → List Char → List String
  | [], acc => if acc = [] then [] else [String.mk acc.reverse]
  | c :: cs, acc =>
    if pyIsSpace c then
      if acc = [] then splitWsAux cs []
      else String.mk acc.reverse :: splitWsAux cs []
    else splitWsAux cs (c :: acc)

/-- Python `s.split()`: split on runs of whitespace, discarding empty
tokens. -/
def pySplit (s : String) : List String :=
  splitWsAux s.data []

/-- Python `s.strip()`: remove leading and trailing whitespace. -/
def pyStrip (s : String) : String :=
  String.mk (((s.toList.dropWhile pyIsSpace).reverse.dropWhile pyIsSpace).reverse)

/-- Python truthiness of the optional string `self.build_tag`
(`None` and `""` are falsy). -/
def pyTruthy : Option String → Bool
  | none => false
  | some s => !s.isEmpty

/-- Exceptions that can escape the two embedded methods.  Each constructor
records which Python exception class the source raises at that point. -/
inductive PyError where
  /-- `NameError`: a global name is referenced but never defined or imported
  in the module (the module imports neither `error_out` nor anything that
  defines it, so the call on the no-tag non-test path raises this). -/
  | nameError (name : String)
  /-- `tito.common.run_command` on a command exiting non-zero (tito's
  `RunCommandError`; the spec's `BuildToolError`). -/
  | buildToolError (cmd : String)
  /-- `IOError` from `open("./Godeps/Godeps.json")` when the file is
  missing or unreadable. -/
  | ioError (path : String)
  /-- `ValueError` from `json.load` on unparseable content. -/
  | valueError (path : String)
  /-- Fatal user-facing abort raised inside the `tito` library itself
  (`check_tag_exists` failing); the spec's `ConfigurationError`. -/
  | configurationError (msgs : List String)
  deriving DecidableEq, Repr

/-- Checks whether an error is the spec's `ConfigurationError`. -/
def PyError.isConfigurationError : PyError → Bool
  | .configurationError _ => true
  | _ => false

/-- The mutable attributes of the builder object that the two methods read
or write, plus the descriptor file content and the diagnostic streams.
`latestTagQueries` counts the calls made to the source-control
`get_latest_tagged_version` collaborator. -/
structure BuildState where
  test : Bool
  ran_setup_test_specfile : Bool
  git_commit_id : String
  project_name : String
  display_version : String
  commit_count : Nat
  tgz_filename : String
  build_version : String
  build_tag : Option String
  offline : Bool
  specLines : List String
  stdoutLines : List String
  stderrLines : List String
  latestTagQueries : Nat
  deriving DecidableEq, Repr

/-- Outcome of reading `./Godeps/Godeps.json`: the file may be missing
(`open` raises `IOError`), unparseable (`json.load` raises `ValueError`),
or yield the ordered `Deps` list of `(ImportPath, Rev)` pairs. -/
inductive GodepsRead where
  | missing
  | malformed
  | ok (deps : List (String × String))
  deriving DecidableEq, Repr

/-- External collaborators consumed by `_setup_test_specfile`:
`munge_specfile` (tito's SpecTestMunger, an opaque rewrite of the
descriptor lines given sha, commit count, full name and archive name), the
linker-flags shell command (`run_command` on
`bash -c '. ./hack/common.sh ; echo $(os::build::ldflags)'`, `.error`
when the command exits non-zero), and the dependency-manifest read. -/
structure SetupEnv where
  munge : List String → String → Nat → String → String → List String
  ldflagsCmd : Except String String
  godeps : GodepsRead

/-- External collaborators consumed by `_get_build_version`:
`get_latest_tagged_version(project_name)`, the version/release string
`get_spec_version_and_release(start_dir, find_spec_file(in_dir=start_dir))`
reads from the on-disk descriptor, and `check_tag_exists(tag, offline)`
(false means the tito library aborts with its user-facing error, the
spec's `ConfigurationError`). -/
structure VersionEnv where
  latestTagged : Option String
  specVersionRelease : String
  tagExists : String → Bool → Bool

/-- Anchored match of a pattern against the start of a line, as `sed`'s
`^`-anchored literal patterns do. -/
def listStartsWith : List Char → List Char → Bool
  | [], _ => true
  | _ :: _, [] => false
  | a :: as, b :: bs => a = b && listStartsWith as bs

/-- String version of `listStartsWith`. -/
def strStartsWith (pat s : String) : Bool := listStartsWith pat.data s.data

/-- Leading text of the descriptor line the `sed` pattern
`s|^%global ldflags .*$|...|` matches and rewrites. -/
def ldflagsLead : String := "%global ldflags "

/-- Marker matched by the `sed` pattern `s|^### AUTO-BUNDLED-GEN-ENTRY-POINT|...|`
(anchored at line start only; the matched text is replaced, any remainder
of the line is kept). -/
def markerStr : String := "### AUTO-BUNDLED-GEN-ENTRY-POINT"

/-- Warning written to `sys.stderr` on the untagged test-build path. -/
def warnUntagged : String :=
  "WARNING: unable to lookup latest package tag, building untagged test project\n"

/-- Embeds `' '.join([ldflag.strip() for ldflag in ldflags.split()])`. -/
def normalizeLdflags (ldflags : String) : String :=
  String.intercalate " " ((pySplit ldflags).map pyStrip)

/-- Embeds `"Provides: bundled(golang({0})) = {1}".format(bdep[0], bdep[1])`. -/
def providesLine (bdep : String × String) : String :=
  "Provides: bundled(golang(" ++ bdep.1 ++ ")) = " ++ bdep.2

/-- Line-level effect of the ldflags `sed`: a line matching
`^%global ldflags .*$` is replaced by `%global ldflags ` followed by the
normalized flags; other lines are untouched. -/
def updateLdflagsLine (norm l : String) : String :=
  if strStartsWith ldflagsLead l then ldflagsLead ++ norm else l

/-- Splices the text `intercalate "\n" block ++ suffix` back into lines
(the provenance `sed` replacement joins `provides_list` with `\n`, so one
matched line becomes several; entries are import paths and revisions,
which contain no newline). -/
def spliceLines : List String → String → List String
  | [], suffix => [suffix]
  | [x], suffix => [x ++ suffix]
  | x :: y :: xs, suffix => x :: spliceLines (y :: xs) suffix

/-- Line-level effect of the provenance `sed`: in every line starting with
the marker, the marker text is replaced by the newline-joined block, the
rest of the line kept. -/
def replaceMarkerLines (block : List String) (lines : List String) : List String :=
  lines.flatMap (fun l =>
    if strStartsWith markerStr l then spliceLines block (l.drop markerStr.length)
    else [l])

/-- Embedding of `OriginBuilder._setup_test_specfile`.  Returns the state
after all attribute and file mutations performed before a normal return or
before the raised exception, paired with the outcome. -/
def setupTestSpecfile (env : SetupEnv) (s : BuildState) :
    BuildState × Except PyError Unit :=
  if s.test && !s.ran_setup_test_specfile then
    let sha := s.git_commit_id.take 7
    let fullname := s.project_name ++ "-" ++ s.display_version
    let munged := env.munge s.specLines sha s.commit_count fullname s.tgz_filename
    let s1 := { s with specLines := munged }
    match env.ldflagsCmd with
    | .error cmd => (s1, .error (.buildToolError cmd))
    | .ok ldflags =>
      let s2 := { s1 with stdoutLines := s1.stdoutLines ++ ["LDFLAGS::" ++ ldflags] }
      let s3 := { s2 with specLines := s2.specLines.map (updateLdflagsLine (normalizeLdflags ldflags)) }
      match env.godeps with
      | .missing => (s3, .error (.ioError "./Godeps/Godeps.json"))
      | .malformed => (s3, .error (.valueError "./Godeps/Godeps.json"))
      | .ok deps =>
        let provides_list := deps.map providesLine
        let s4 := { s3 with specLines := replaceMarkerLines provides_list s3.specLines, stdoutLines := s3.stdoutLines ++ [""] }
        let suffix := ".git." ++ toString s4.commit_count ++ "." ++ s4.git_commit_id.take 7
        let s5 := { s4 with build_version := s4.build_version ++ suffix }
        ({ s5 with ran_setup_test_specfile := true }, .ok ())
  else (s, .ok ())

/-- Embedding of `OriginBuilder._get_build_version`.  Returns the state
after the attribute mutations performed so far, paired with the outcome
(the returned `build_version` string, or the raised exception). -/
def getBuildVersion (env : VersionEnv) (s : BuildState) :
    BuildState × Except PyError String :=
  let step : BuildState × Except PyError String :=
    if pyTruthy s.build_tag then
      (s, .ok ((s.build_tag.getD "").drop (s.project_name ++ "-").length))
    else
      let s1 := { s with latestTagQueries := s.latestTagQueries + 1 }
      match env.latestTagged with
      | some bv => ({ s1 with build_tag := some ("v" ++ bv) }, .ok bv)
      | none =>
        if !s1.test then
          (s1, .error (.nameError "error_out"))
        else
          let s2 := { s1 with stderrLines := s1.stderrLines ++ [warnUntagged] }
          let bv := env.specVersionRelease
          ({ s2 with build_tag := some ("v" ++ bv) }, .ok bv)
  match step with
  | (s', .error e) => (s', .error e)
  | (s', .ok bv) =>
    if !s'.test then
      if env.tagExists (s'.build_tag.getD "") s'.offline then (s', .ok bv)
      else (s', .error (.configurationError ["Tag does not exist locally: " ++ (s'.build_tag.getD "")]))
    else (s', .ok bv)

/-! Helper lemmas about the string primitives. -/

/-- Dropping the length of the first summand of an append leaves the
second summand. -/
theorem drop_len_append (a b : String) : (a ++ b).drop a.length = b := by
  rw [String.drop_eq]
  apply String.ext
  show List.drop a.length (a.data ++ b.data) = b.data
  have h : a.length = a.data.length := rfl
  rw [h, List.drop_left]

/-- Dropping a string's own length leaves the empty string. -/
theorem drop_self_len (a : String) : a.drop a.length = "" := by
  have h := drop_len_append a ""
  rwa [String.append_empty] at h

/-- A string with a literal dash in the middle is not empty. -/
theorem append_mid_isEmpty (p v : String) : (p ++ "-" ++ v).isEmpty = false := by
  by_contra h
  have h2 : (p ++ "-" ++ v).isEmpty = true := by
    cases hc : (p ++ "-" ++ v).isEmpty
    · exact absurd hc h
    · rfl
  have h3 := (String.isEmpty_iff _).mp h2
  have hd : (p ++ "-" ++ v).data = "".data := by rw [h3]
  simp [String.data_append] at hd

/-- A build tag of the shape `<project>-<version>` is Python-truthy. -/
theorem pyTruthy_mid (p v : String) : pyTruthy (some (p ++ "-" ++ v)) = true := by
  show (!(p ++ "-" ++ v).isEmpty) = true
  rw [append_mid_isEmpty]
  rfl

/-! Concrete inputs used by the witnesses and by the closed theorems. -/

/-- Baseline builder state shared by the concrete instances below. -/
def baseState : BuildState := {
  test := false, ran_setup_test_specfile := false,
  git_commit_id := "abcdef1234567", project_name := "proj",
  display_version := "1.2.3", commit_count := 42,
  tgz_filename := "proj-1.2.3.tar.gz", build_version := "1.2.3",
  build_tag := none, offline := false,
  specLines := ["Name: proj", "%global ldflags -X old",
    "### AUTO-BUNDLED-GEN-ENTRY-POINT", "tail"],
  stdoutLines := [], stderrLines := [], latestTagQueries := 0 }

/-! Claim C5: explicit build tag. -/

/-- C5: whenever `build_tag` is `<project_name>-<version>`, the resolver
returns the suffix after the `<project_name>-` part and never consults the
source-control latest-tag collaborator (a test build skips the tag-exists
check; a non-test build needs it to pass in order to return). -/
theorem buildVersion_explicit_tag_strips_project
    (env : VersionEnv) (s : BuildState) (p v : String)
    (hp : s.project_name = p)
    (ht : s.build_tag = some (p ++ "-" ++ v))
    (hc : s.test = true ∨ env.tagExists (p ++ "-" ++ v) s.offline = true) :
    (getBuildVersion env s).2 = .ok v ∧
    (getBuildVersion env s).1.latestTagQueries = s.latestTagQueries := by
  have hdrop : (p ++ "-" ++ v).drop (p ++ "-").length = v := drop_len_append (p ++ "-") v
  rw [String.length_append] at hdrop
  rcases hc with hc | hc
  · simp [getBuildVersion, ht, hp, pyTruthy_mid, hdrop, hc]
  · by_cases hst : s.test = true
    · simp [getBuildVersion, ht, hp, pyTruthy_mid, hdrop, hst]
    · have hst' : s.test = false := by
        cases hv : s.test
        · rfl
        · exact absurd hv hst
      simp [getBuildVersion, ht, hp, pyTruthy_mid, hdrop, hst', hc]

/-- Environment for the C5 witness: the explicit tag exists. -/
def c5Env : VersionEnv := {
  latestTagged := some "9.9", specVersionRelease := "8.8",
  tagExists := fun t _ => t == "proj-1.2.3" }

/-- State for the C5 witness: a non-test build with an explicit tag. -/
def c5State : BuildState := { baseState with build_tag := some "proj-1.2.3" }

/-- C5 witness at `build_tag = "proj-1.2.3"`, `project_name = "proj"`. -/
theorem buildVersion_explicit_tag_strips_project_witness :
    c5State.build_tag = some ("proj" ++ "-" ++ "1.2.3") ∧
    ((getBuildVersion c5Env c5State).2 = .ok "1.2.3" ∧
     (getBuildVersion c5Env c5State).1.latestTagQueries = c5State.latestTagQueries) :=
  ⟨by decide,
   buildVersion_explicit_tag_strips_project c5Env c5State "proj" "1.2.3"
     (by decide) (by decide) (Or.inr (by decide))⟩

/-! Claim C6: no explicit tag, source control has a latest tagged version. -/

/-- C6: with no `build_tag` on a non-test build and a latest tagged
version `v` in source control, the resolver returns `v` and sets
`build_tag` to `"v" ++ v` (the tag-exists check passing is needed for the
return value). -/
theorem buildVersion_latest_tag_synthesizes_vtag
    (env : VersionEnv) (s : BuildState) (v : String)
    (h1 : s.test = false)
    (ht : s.build_tag = none)
    (hlt : env.latestTagged = some v)
    (hex : env.tagExists ("v" ++ v) s.offline = true) :
    (getBuildVersion env s).2 = .ok v ∧
    (getBuildVersion env s).1.build_tag = some ("v" ++ v) := by
  simp [getBuildVersion, ht, hlt, h1, pyTruthy, hex]

/-- Environment for the C6 witness: latest tag `proj-2.0.0`, and the
synthesized tag `v2.0.0` exists. -/
def c6Env : VersionEnv := {
  latestTagged := some "2.0.0", specVersionRelease := "8.8",
  tagExists := fun t _ => t == "v2.0.0" }

/-- C6 witness at latest tagged version `2.0.0`. -/
theorem buildVersion_latest_tag_synthesizes_vtag_witness :
    (baseState.test = false ∧ baseState.build_tag = none) ∧
    ((getBuildVersion c6Env baseState).2 = .ok "2.0.0" ∧
     (getBuildVersion c6Env baseState).1.build_tag = some "v2.0.0") :=
  ⟨by decide,
   buildVersion_latest_tag_synthesizes_vtag c6Env baseState "2.0.0"
     (by decide) (by decide) (by decide) (by decide)⟩

/-! Claim C7: test build, no tag anywhere. -/

/-- C7: a test build with no `build_tag` and no latest tag does not fail:
it appends the warning line to standard error and returns the
version/release read from the on-disk descriptor. -/
theorem buildVersion_test_untagged_falls_back
    (env : VersionEnv) (s : BuildState)
    (h1 : s.test = true)
    (ht : s.build_tag = none)
    (hlt : env.latestTagged = none) :
    (getBuildVersion env s).2 = .ok env.specVersionRelease ∧
    (getBuildVersion env s).1.stderrLines = s.stderrLines ++ [warnUntagged] := by
  simp [getBuildVersion, ht, hlt, h1, pyTruthy]

/-- Environment for the C7 witness: no latest tag; the descriptor file
reads version/release `1.2.3-1`. -/
def c7Env : VersionEnv := {
  latestTagged := none, specVersionRelease := "1.2.3-1",
  tagExists := fun _ _ => false }

/-- State for the C7 witness: an untagged test build. -/
def c7State : BuildState := { baseState with test := true }

/-- C7 witness: the untagged test build returns the descriptor's
version/release and logs the warning. -/
theorem buildVersion_test_untagged_falls_back_witness :
    (c7State.test = true ∧ c7State.build_tag = none) ∧
    ((getBuildVersion c7Env c7State).2 = .ok "1.2.3-1" ∧
     (getBuildVersion c7Env c7State).1.stderrLines = c7State.stderrLines ++ [warnUntagged]) :=
  ⟨by decide,
   buildVersion_test_untagged_falls_back c7Env c7State
     (by decide) (by decide) (by decide)⟩

/-! Claim C1: non-test build, no tag anywhere.  The module imports
`error_out` nowhere (see the import list of the source file), so the call
`error_out([...])` on this path raises `NameError`, not the spec's
`ConfigurationError`; the build still terminates with no descriptor
mutation. -/

/-- Environment for the C1 input: no latest tag in source control. -/
def c1Env : VersionEnv := {
  latestTagged := none, specVersionRelease := "1.2.3-1",
  tagExists := fun _ _ => true }

/-- C1: on a non-test build with no `build_tag` and no latest tag, the
resolver terminates the build by raising, but with `NameError` (the
`error_out` helper is referenced without ever being imported), not with a
`ConfigurationError`; the descriptor lines are untouched. -/
theorem buildVersion_untagged_nontest_raises_nameError :
    (getBuildVersion c1Env baseState).2 = .error (.nameError "error_out") ∧
    PyError.isConfigurationError (.nameError "error_out") = false ∧
    (getBuildVersion c1Env baseState).1.specLines = baseState.specLines := by
  decide

/-! Helper lemmas about the line-substitution primitives. -/

/-- Anchored matching is reflexive. -/
theorem listStartsWith_refl : ∀ l : List Char, listStartsWith l l = true := by
  intro l
  induction l with
  | nil => rfl
  | cons a as ih => simp [listStartsWith, ih]

/-- Anchored matching of a string against itself succeeds. -/
theorem strStartsWith_self (s : String) : strStartsWith s s = true :=
  listStartsWith_refl s.data

/-- The provenance marker never matches a line produced by the ldflags
substitution (the two start with different characters). -/
theorem marker_not_lead (x : String) : strStartsWith markerStr (ldflagsLead ++ x) = false := by
  unfold strStartsWith
  rw [String.data_append]
  rw [show markerStr.data = '#' :: "## AUTO-BUNDLED-GEN-ENTRY-POINT".data from rfl]
  rw [show ldflagsLead.data = '%' :: "global ldflags ".data from rfl]
  simp [listStartsWith]

/-- A line the marker does not match survives the provenance substitution. -/
theorem mem_replaceMarkerLines (block lines : List String) (x : String)
    (hx : x ∈ lines) (hm : strStartsWith markerStr x = false) :
    x ∈ replaceMarkerLines block lines := by
  unfold replaceMarkerLines
  exact List.mem_flatMap.mpr ⟨x, hx, by simp [hm]⟩

/-- The provenance substitution distributes over concatenation of the
line list. -/
theorem replaceMarkerLines_append (block l1 l2 : List String) :
    replaceMarkerLines block (l1 ++ l2) =
      replaceMarkerLines block l1 ++ replaceMarkerLines block l2 := by
  unfold replaceMarkerLines
  exact List.flatMap_append l1 l2 _

/-- Lines the marker matches nowhere are left untouched by the provenance
substitution. -/
theorem replaceMarkerLines_no_marker (block lines : List String)
    (h : ∀ l ∈ lines, strStartsWith markerStr l = false) :
    replaceMarkerLines block lines = lines := by
  induction lines with
  | nil => rfl
  | cons a as ih =>
    unfold replaceMarkerLines
    rw [List.flatMap_cons]
    have ha : strStartsWith markerStr a = false := h a (by simp)
    have has : replaceMarkerLines block as = as :=
      ih (fun l hl => h l (by simp [hl]))
    unfold replaceMarkerLines at has
    simp [ha, has]

/-- Splicing a non-empty block with an empty remainder yields the block. -/
theorem spliceLines_empty_suffix (block : List String) (h : block ≠ []) :
    spliceLines block "" = block := by
  induction block with
  | nil => exact absurd rfl h
  | cons a as ih =>
    cases as with
    | nil =>
      show [a ++ ""] = [a]
      rw [String.append_empty]
    | cons b bs =>
      show a :: spliceLines (b :: bs) "" = a :: b :: bs
      rw [ih (by simp)]

/-- A line consisting of the marker alone is replaced by the whole block. -/
theorem replaceMarkerLines_marker_cons (block post : List String) (h : block ≠ []) :
    replaceMarkerLines block (markerStr :: post) =
      block ++ replaceMarkerLines block post := by
  unfold replaceMarkerLines
  rw [List.flatMap_cons]
  rw [show (if strStartsWith markerStr markerStr then
      spliceLines block (markerStr.drop markerStr.length) else [markerStr]) =
      spliceLines block "" from by rw [strStartsWith_self, drop_self_len]; rfl]
  rw [spliceLines_empty_suffix block h]

/-! Claim C4: the mutation runs at most once per context. -/

/-- C4: `_setup_test_specfile` is a pure no-op unless `test` is true and
the `ran_setup_test_specfile` flag is false, and after a successful run
the flag is set, so a second invocation on the resulting state changes
nothing. -/
theorem setupTestSpecfile_idempotent (env : SetupEnv) (s : BuildState) :
    (s.test = false ∨ s.ran_setup_test_specfile = true →
      setupTestSpecfile env s = (s, .ok ())) ∧
    ((setupTestSpecfile env s).2 = .ok () →
      setupTestSpecfile env (setupTestSpecfile env s).1 =
        ((setupTestSpecfile env s).1, .ok ())) := by
  constructor
  · intro h
    rcases h with h | h <;> simp [setupTestSpecfile, h]
  · intro hok
    by_cases hb : (s.test && !s.ran_setup_test_specfile) = true
    · obtain ⟨h1, h2⟩ : s.test = true ∧ s.ran_setup_test_specfile = false := by
        constructor
        · exact (Bool.and_eq_true _ _).mp hb |>.1
        · have := (Bool.and_eq_true _ _).mp hb |>.2
          cases hr : s.ran_setup_test_specfile
          · rfl
          · rw [hr] at this; exact absurd this (by decide)
      cases h3 : env.ldflagsCmd with
      | error cmd => exfalso; simp [setupTestSpecfile, h1, h2, h3] at hok
      | ok L =>
        cases h4 : env.godeps with
        | missing => exfalso; simp [setupTestSpecfile, h1, h2, h3, h4] at hok
        | malformed => exfalso; simp [setupTestSpecfile, h1, h2, h3, h4] at hok
        | ok deps =>
          simp [setupTestSpecfile, h1, h2, h3, h4]
    · have hb' : (s.test && !s.ran_setup_test_specfile) = false := by
        cases hv : (s.test && !s.ran_setup_test_specfile)
        · rfl
        · exact absurd hv hb
      have hfix : setupTestSpecfile env s = (s, .ok ()) := by
        unfold setupTestSpecfile
        rw [hb']
        rfl
      rw [hfix]
      exact hfix

/-- Environment for the setup-phase witnesses: the munge collaborator
leaves the lines unchanged, the linker-flags command succeeds, and the
manifest holds one dependency. -/
def c4Env : SetupEnv := {
  munge := fun lines _ _ _ _ => lines,
  ldflagsCmd := .ok "-X a=b",
  godeps := .ok [("github.com/a/b", "deadbeef")] }

/-- State for the setup-phase witnesses: a fresh test build. -/
def testState : BuildState := { baseState with test := true }

/-- C4 witness: the first run succeeds and the second run on its result is
the identity. -/
theorem setupTestSpecfile_idempotent_witness :
    (setupTestSpecfile c4Env testState).2 = .ok () ∧
    setupTestSpecfile c4Env (setupTestSpecfile c4Env testState).1 =
      ((setupTestSpecfile c4Env testState).1, .ok ()) :=
  ⟨by decide, (setupTestSpecfile_idempotent c4Env testState).2 (by decide)⟩

/-! Claim C8: the version suffix appended on a successful run. -/

/-- C8: a successful test-build run appends exactly
`".git." ++ commit_count ++ "." ++ (first 7 characters of commit_id)` to
`build_version`. -/
theorem setupTestSpecfile_appends_git_suffix
    (env : SetupEnv) (s : BuildState) (L : String) (deps : List (String × String))
    (h1 : s.test = true) (h2 : s.ran_setup_test_specfile = false)
    (h3 : env.ldflagsCmd = .ok L) (h4 : env.godeps = .ok deps) :
    (setupTestSpecfile env s).1.build_version =
      s.build_version ++ (".git." ++ toString s.commit_count ++ "." ++ s.git_commit_id.take 7) ∧
    (setupTestSpecfile env s).2 = .ok () := by
  simp [setupTestSpecfile, h1, h2, h3, h4]

/-- C8 witness at `commit_id = "abcdef1234567"`, `commit_count = 42`:
the appended suffix is exactly `".git.42.abcdef1"`. -/
theorem setupTestSpecfile_appends_git_suffix_witness :
    ((setupTestSpecfile c4Env testState).1.build_version =
      testState.build_version ++
        (".git." ++ toString testState.commit_count ++ "." ++ testState.git_commit_id.take 7) ∧
     (setupTestSpecfile c4Env testState).2 = .ok ()) ∧
    testState.build_version ++
      (".git." ++ toString testState.commit_count ++ "." ++ testState.git_commit_id.take 7) =
      "1.2.3" ++ ".git.42.abcdef1" :=
  ⟨setupTestSpecfile_appends_git_suffix c4Env testState "-X a=b"
      [("github.com/a/b", "deadbeef")] (by decide) (by decide) (by decide) (by decide),
   by decide⟩

/-! Claim C9: normalization of the linker flags. -/

/-- C9: whatever string the linker-flags collaborator outputs, every line
of the (munged) descriptor that the ldflags pattern matches is rewritten
to `%global ldflags ` followed by the output split on whitespace and
rejoined with single spaces, and that rewritten line is still present in
the final descriptor whatever the manifest read yields; on the concrete
output of the spec's example the normalized value is
`-X foo=bar -X baz=qux`. -/
theorem setupTestSpecfile_normalizes_ldflags
    (env : SetupEnv) (s : BuildState) (L l : String)
    (h1 : s.test = true) (h2 : s.ran_setup_test_specfile = false)
    (h3 : env.ldflagsCmd = .ok L)
    (hl : l ∈ env.munge s.specLines (s.git_commit_id.take 7) s.commit_count
      (s.project_name ++ "-" ++ s.display_version) s.tgz_filename)
    (hp : strStartsWith ldflagsLead l = true) :
    (ldflagsLead ++ normalizeLdflags L) ∈ (setupTestSpecfile env s).1.specLines ∧
    normalizeLdflags "  -X foo=bar   -X baz=qux  " = "-X foo=bar -X baz=qux" := by
  constructor
  · have hmem : (ldflagsLead ++ normalizeLdflags L) ∈
        (env.munge s.specLines (s.git_commit_id.take 7) s.commit_count
          (s.project_name ++ "-" ++ s.display_version) s.tgz_filename).map
          (updateLdflagsLine (normalizeLdflags L)) := by
      have h := List.mem_map_of_mem (updateLdflagsLine (normalizeLdflags L)) hl
      rwa [show updateLdflagsLine (normalizeLdflags L) l = ldflagsLead ++ normalizeLdflags L
        from by unfold updateLdflagsLine; rw [hp]; rfl] at h
    cases h4 : env.godeps with
    | missing => simpa [setupTestSpecfile, h1, h2, h3, h4] using hmem
    | malformed => simpa [setupTestSpecfile, h1, h2, h3, h4] using hmem
    | ok deps =>
      simp only [setupTestSpecfile, h1, h2, h3, h4]
      simp only [Bool.not_false, Bool.and_true, if_true]
      exact mem_replaceMarkerLines _ _ _ hmem (marker_not_lead _)
  · decide

/-- Environment for the C9 witness: the collaborator outputs the spec's
example string. -/
def c9Env : SetupEnv := {
  munge := fun lines _ _ _ _ => lines,
  ldflagsCmd := .ok "  -X foo=bar   -X baz=qux  ",
  godeps := .ok [("github.com/a/b", "deadbeef")] }

/-- C9 witness: the descriptor's ldflags line ends up holding the
collapsed, trimmed flags. -/
theorem setupTestSpecfile_normalizes_ldflags_witness :
    ((ldflagsLead ++ normalizeLdflags "  -X foo=bar   -X baz=qux  ") ∈
      (setupTestSpecfile c9Env testState).1.specLines ∧
     normalizeLdflags "  -X foo=bar   -X baz=qux  " = "-X foo=bar -X baz=qux") ∧
    ldflagsLead ++ normalizeLdflags "  -X foo=bar   -X baz=qux  " =
      "%global ldflags -X foo=bar -X baz=qux" :=
  ⟨setupTestSpecfile_normalizes_ldflags c9Env testState
      "  -X foo=bar   -X baz=qux  " "%global ldflags -X old"
      (by decide) (by decide) (by decide) (by decide) (by decide),
   by decide⟩

/-! Claim C10: the provenance block. -/

/-- C10: when the descriptor (after the munge and ldflags steps) consists
of marker-free lines around a single line holding exactly the marker, the
final descriptor replaces that line, in place, by one
`Provides: bundled(golang(<import_path>)) = <revision>` line per manifest
entry, in manifest order. -/
theorem setupTestSpecfile_provenance_block
    (env : SetupEnv) (s : BuildState) (L : String) (deps : List (String × String))
    (pre post : List String)
    (h1 : s.test = true) (h2 : s.ran_setup_test_specfile = false)
    (h3 : env.ldflagsCmd = .ok L) (h4 : env.godeps = .ok deps)
    (hmid : (env.munge s.specLines (s.git_commit_id.take 7) s.commit_count
      (s.project_name ++ "-" ++ s.display_version) s.tgz_filename).map
      (updateLdflagsLine (normalizeLdflags L)) = pre ++ markerStr :: post)
    (hpre : ∀ l ∈ pre, strStartsWith markerStr l = false)
    (hpost : ∀ l ∈ post, strStartsWith markerStr l = false)
    (hne : deps ≠ []) :
    (setupTestSpecfile env s).1.specLines = pre ++ deps.map providesLine ++ post := by
  have hb : deps.map providesLine ≠ [] := by
    intro h
    exact hne (List.map_eq_nil_iff.mp h)
  simp only [setupTestSpecfile, h1, h2, h3, h4]
  simp only [Bool.not_false, Bool.and_true, if_true]
  rw [hmid, replaceMarkerLines_append, replaceMarkerLines_no_marker _ pre hpre,
    replaceMarkerLines_marker_cons _ post hb, replaceMarkerLines_no_marker _ post hpost,
    List.append_assoc]

/-- Environment for the C10 witness: the manifest holds the spec's two
example entries. -/
def c10Env : SetupEnv := {
  munge := fun lines _ _ _ _ => lines,
  ldflagsCmd := .ok "-X a=b",
  godeps := .ok [("github.com/a/b", "deadbeef"), ("github.com/c/d", "cafebabe")] }

/-- State for the C10 witness: the descriptor has one marker line between
two ordinary lines. -/
def c10State : BuildState := { baseState with
  test := true,
  specLines := ["Name: proj", "### AUTO-BUNDLED-GEN-ENTRY-POINT", "tail"] }

/-- C10 witness: the marker line is replaced by the two provenance lines
in manifest order. -/
theorem setupTestSpecfile_provenance_block_witness :
    (setupTestSpecfile c10Env c10State).1.specLines =
      ["Name: proj"] ++
        ["Provides: bundled(golang(github.com/a/b)) = deadbeef",
         "Provides: bundled(golang(github.com/c/d)) = cafebabe"] ++ ["tail"] :=
  setupTestSpecfile_provenance_block c10Env c10State "-X a=b"
    [("github.com/a/b", "deadbeef"), ("github.com/c/d", "cafebabe")]
    ["Name: proj"] ["tail"]
    (by decide) (by decide) (by decide) (by decide) (by decide)
    (by decide) (by decide) (by decide)

/-! Claim C2: missing or malformed dependency manifest.  The source reads
the manifest with a bare `open("./Godeps/Godeps.json")` and `json.load`;
a missing file raises `IOError` and unparseable content raises
`ValueError` — neither is wrapped into the spec's `ConfigurationError`,
though the failure does abort the run before any success. -/

/-- Exception the manifest read raises for each failing read outcome
(the `.ok` case never arises under the hypotheses using this). -/
def manifestFailure : GodepsRead → PyError
  | .missing => .ioError "./Godeps/Godeps.json"
  | .malformed => .valueError "./Godeps/Godeps.json"
  | .ok _ => .ioError "./Godeps/Godeps.json"

/-- C2 (amended): a missing manifest aborts the run with `IOError` and a
malformed one with `ValueError`; the run fails fast (it never returns
success, so the provenance block is never silently skipped), but the
exception is not a `ConfigurationError`. -/
theorem setupTestSpecfile_manifest_failure_aborts
    (env : SetupEnv) (s : BuildState) (L : String)
    (h1 : s.test = true) (h2 : s.ran_setup_test_specfile = false)
    (h3 : env.ldflagsCmd = .ok L)
    (h4 : env.godeps = .missing ∨ env.godeps = .malformed) :
    (setupTestSpecfile env s).2 = .error (manifestFailure env.godeps) ∧
    PyError.isConfigurationError (manifestFailure env.godeps) = false := by
  rcases h4 with h4 | h4 <;>
    simp [setupTestSpecfile, h1, h2, h3, h4, manifestFailure, PyError.isConfigurationError]

/-- Environment for the C2 input: the manifest file is missing. -/
def c2Env : SetupEnv := {
  munge := fun lines _ _ _ _ => lines,
  ldflagsCmd := .ok "-X a=b",
  godeps := .missing }

/-- C2 counterexample: on a test build with a missing manifest the run
aborts with `IOError`, which is not a `ConfigurationError`. -/
theorem setupTestSpecfile_missing_manifest_not_configurationError :
    (setupTestSpecfile c2Env testState).2 = .error (.ioError "./Godeps/Godeps.json") ∧
    PyError.isConfigurationError (.ioError "./Godeps/Godeps.json") = false := by
  decide

/-- Environment for the C2 witness: the manifest file is unparseable. -/
def c2MalformedEnv : SetupEnv := {
  munge := fun lines _ _ _ _ => lines,
  ldflagsCmd := .ok "-X a=b",
  godeps := .malformed }

/-- C2 witness: a malformed manifest aborts with `ValueError`. -/
theorem setupTestSpecfile_manifest_failure_aborts_witness :
    ((setupTestSpecfile c2MalformedEnv testState).2 =
      .error (manifestFailure c2MalformedEnv.godeps) ∧
     PyError.isConfigurationError (manifestFailure c2MalformedEnv.godeps) = false) ∧
    manifestFailure c2MalformedEnv.godeps = .valueError "./Godeps/Godeps.json" :=
  ⟨setupTestSpecfile_manifest_failure_aborts c2MalformedEnv testState "-X a=b"
      (by decide) (by decide) (by decide) (Or.inr (by decide)),
   by decide⟩

/-! Claim C3: failure of the linker-flags collaborator.  A non-zero exit
of `run_command` raises (tito's `RunCommandError`, the spec's
`BuildToolError`) before the ldflags substitution runs, so the descriptor
keeps exactly the munged lines.  Empty output with a zero exit, however,
is not detected: the run continues and rewrites the ldflags line to
`%global ldflags ` with an empty value. -/

/-- C3 (amended): a non-zero exit of the linker-flags command surfaces as
the spec's `BuildToolError` and the descriptor is left exactly as the
munge step produced it — the ldflags substitution is never applied. -/
theorem setupTestSpecfile_ldflags_failure_buildToolError
    (env : SetupEnv) (s : BuildState) (cmd : String)
    (h1 : s.test = true) (h2 : s.ran_setup_test_specfile = false)
    (h3 : env.ldflagsCmd = .error cmd) :
    (setupTestSpecfile env s).2 = .error (.buildToolError cmd) ∧
    (setupTestSpecfile env s).1.specLines =
      env.munge s.specLines (s.git_commit_id.take 7) s.commit_count
        (s.project_name ++ "-" ++ s.display_version) s.tgz_filename := by
  simp [setupTestSpecfile, h1, h2, h3]

/-- Environment for the C3 witness: the linker-flags command exits
non-zero. -/
def c3FailEnv : SetupEnv := {
  munge := fun lines _ _ _ _ => lines,
  ldflagsCmd := .error "bash -c ldflags",
  godeps := .ok [("github.com/a/b", "deadbeef")] }

/-- C3 witness: the failing command aborts the run with `BuildToolError`
and the descriptor lines are exactly the munged ones. -/
theorem setupTestSpecfile_ldflags_failure_buildToolError_witness :
    (setupTestSpecfile c3FailEnv testState).2 = .error (.buildToolError "bash -c ldflags") ∧
    (setupTestSpecfile c3FailEnv testState).1.specLines =
      c3FailEnv.munge testState.specLines (testState.git_commit_id.take 7)
        testState.commit_count (testState.project_name ++ "-" ++ testState.display_version)
        testState.tgz_filename :=
  setupTestSpecfile_ldflags_failure_buildToolError c3FailEnv testState "bash -c ldflags"
    (by decide) (by decide) (by decide)

/-- Environment for the C3 counterexample: the command succeeds with
empty output. -/
def c3EmptyEnv : SetupEnv := {
  munge := fun lines _ _ _ _ => lines,
  ldflagsCmd := .ok "",
  godeps := .ok [] }

/-- State for the C3 counterexample: the descriptor holds one ldflags
line with a previous value. -/
def c3EmptyState : BuildState := { baseState with
  test := true,
  specLines := ["%global ldflags -X old"] }

/-- C3 counterexample: empty collaborator output raises nothing — the run
succeeds and the descriptor's ldflags line is overwritten with an empty
value (`%global ldflags ` with nothing after it). -/
theorem setupTestSpecfile_empty_ldflags_silently_written :
    (setupTestSpecfile c3EmptyEnv c3EmptyState).2 = .ok () ∧
    (setupTestSpecfile c3EmptyEnv c3EmptyState).1.specLines = ["%global ldflags "] := by
  decide

end OriginBuilder
